import Mathlib

/-!
Verification development for the analyst-council repository.

The repository orchestrates five "expert" analysis producers (src/agents.py),
runs them concurrently with a one-shot fallback-model policy, joins all
results, and conditionally invokes a "chairman" synthesis step behind a
quorum gate (src/expert_council.py, src/app.py).

This file is a shallow embedding of that logic: Python dictionaries become
Lean structures (absent keys become `none`), the external reasoning-service
call boundary becomes an explicit outcome parameter (`ApiOutcome`), Python
exceptions caught by `try/except` blocks become the `exn` outcome converted
to classified error dictionaries exactly where the source converts them,
and the in-place mutation of a shared agent object performed by the
fallback path becomes explicit state passing of `AgentState`.
-/

/-! ## Python string primitives

Executable models of the Python string operations the source relies on:
`str.lower()`, `str.strip()`, and the `in` substring test. -/

/-- Model of Python `str.lower()` (ASCII case folding, as used on model names). -/
def pyLower (s : String) : String := String.mk (s.data.map Char.toLower)

/-- Model of Python `str.strip()`: drop whitespace from both ends. -/
def pyStrip (s : String) : String :=
  String.mk (((s.data.dropWhile Char.isWhitespace).reverse.dropWhile Char.isWhitespace).reverse)

/-- Character-list matching at the head: `matchesAt pat l` is true when `pat`
is an initial segment of `l`. -/
def matchesAt : List Char → List Char → Bool
  | [], _ => true
  | _ :: _, [] => false
  | p :: ps, c :: cs => p == c && matchesAt ps cs

/-- Substring search over character lists. -/
def containsSeq (pat : List Char) : List Char → Bool
  | [] => pat.isEmpty
  | c :: rest => matchesAt pat (c :: rest) || containsSeq pat rest

/-- Model of Python `pat in s` for strings: `hasSub s pat` is true when `pat`
occurs as a contiguous substring of `s`. -/
def hasSub (s pat : String) : Bool := containsSeq pat.toList s.toList

/-! ## Data model

`ResultDict` embeds the per-expert result dictionaries produced by
`BaseAgent.analyze_stock` and `ExpertCouncil._analyze_with_agent`
(src/agents.py lines 133-149, src/expert_council.py lines 271-292).
Keys that some dictionaries omit are modelled as `Option` fields set
to `none`. -/

/-- Per-expert result dictionary. Fields mirror the keys
`expert_name`, `expert_type`, `analysis`, `status`, `error_message`,
`model_used` of the Python dictionaries. -/
structure ResultDict where
  expert_name : String
  expert_type : Option String
  analysis : Option String
  status : String
  error_message : Option String
  model_used : String
deriving DecidableEq, Repr

/-- Mutable per-agent configuration state (`BaseAgent.__init__`,
src/agents.py lines 23-40): the fields `_analyze_with_agent` reads and
overwrites. The API client is a pure function of `model` and `api_key`
(see `init_client`), so it is not stored separately. -/
structure AgentState where
  expert_name : String
  expert_type : String
  model : String
  api_key : String
deriving DecidableEq, Repr

/-- Outcome of one underlying reasoning-service request, supplied as an
oracle at the adapter boundary: `ok payload` models a call that returned
(`payload = none` models a `None` message body), `exn msg` models a call
that raised an exception with message `msg`. -/
inductive ApiOutcome where
  | ok (payload : Option String)
  | exn (msg : String)
deriving DecidableEq, Repr

/-- Service client kinds selectable by `BaseAgent._initialize_client`
(src/agents.py lines 42-53). -/
inductive ClientKind where
  | openaiClient
  | anthropicClient
  | geminiClient
deriving DecidableEq, Repr

/-! ## src/agents.py -/

/-- Embedding of `BaseAgent._initialize_client` (src/agents.py lines 42-53):
pick a client by case-insensitive substring match on the configured model
name; anything unrecognized falls through to the OpenAI client. -/
def init_client (model : String) : ClientKind :=
  if hasSub (pyLower model) ("gpt") then ClientKind.openaiClient
  else if hasSub (pyLower model) ("claude") then ClientKind.anthropicClient
  else if hasSub (pyLower model) ("gemini") then ClientKind.geminiClient
  else ClientKind.openaiClient

/-- Model name actually placed in the outbound request by
`BaseAgent.analyze_stock` (src/agents.py lines 80-127): the configured name
in the gpt/claude/gemini branches, but the hard-coded literal `"gpt-4o"` in
the default (unrecognized-model) branch at line 120. -/
def requestModelName (model : String) : String :=
  if hasSub (pyLower model) ("gpt") then model
  else if hasSub (pyLower model) ("claude") then model
  else if hasSub (pyLower model) ("gemini") then model
  else "gpt-4o"

/-- Embedding of the emptiness test at src/agents.py line 130:
`if not analysis_result or analysis_result.strip() == ""`. -/
def emptyCheck : Option String → Bool
  | none => true
  | some s => s == "" || pyStrip s == ""

/-- Placeholder text substituted for an empty payload at
src/agents.py line 131. -/
def placeholderMsg (expert_name : String) : String :=
  "[" ++ expert_name ++ "] 분석 결과를 생성할 수 없습니다. API 응답이 비어있습니다."

/-- Embedding of `BaseAgent.analyze_stock` (src/agents.py lines 65-149).
The service request itself is the oracle `outcome`. A returned payload that
is empty or blank is replaced by `placeholderMsg` and still reported with
status `"success"` (lines 129-139); a raised exception is caught and
converted to a classified error dictionary (lines 141-149). Both branches
tag `model_used` with the agent's configured model. -/
def analyze_stock (agent : AgentState) (outcome : ApiOutcome) : ResultDict :=
  match outcome with
  | ApiOutcome.ok payload =>
      let analysis_result :=
        if emptyCheck payload then placeholderMsg agent.expert_name
        else payload.getD ""
      ⟨agent.expert_name, some agent.expert_type, some analysis_result,
        "success", none, agent.model⟩
  | ApiOutcome.exn msg =>
      ⟨agent.expert_name, some agent.expert_type, none,
        "error", some msg, agent.model⟩

/-! ## src/expert_council.py -/

/-- Embedding of `ExpertCouncil.fallback_map` (src/expert_council.py
lines 47-49): the only configured fallback maps the shared primary model
to the pair `("gpt-5", openai_key)`. -/
def fallback_map (openai_key : String) (model : String) : Option (String × String) :=
  if model = "claude-sonnet-4-20250514" then some ("gpt-5", openai_key) else none

/-- Result of one `_analyze_with_agent` execution: the returned dictionary,
the agent's configuration state after the call (including the effect of the
`finally` block), and the number of `analyze_stock` invocations made. -/
structure RunResult where
  result : ResultDict
  agentAfter : AgentState
  apiCalls : Nat
deriving DecidableEq, Repr

/-- Embedding of `ExpertCouncil._analyze_with_agent` (src/expert_council.py
lines 256-297).

Control flow mirrors the source: the primary `analyze_stock` call is made
once; a result with status `"error"` is re-raised into the `except` block
(line 264-265), where the fallback map is consulted. With no fallback the
function returns a fresh error dictionary naming the registry key
`agent_name` (lines 271-277; the dictionary has no `expert_type` or
`analysis` keys, modelled as `none`). With a fallback, the shared agent
object's `model` and `api_key` fields are overwritten (line 281) and
`analyze_stock` is called once more; its dictionary is returned as-is
(line 285).

The `finally` block (lines 293-297) looks `original_agent` up in
`self.agents` by `expert_name` — which yields the very same object whose
`model` field was just overwritten — and then assigns
`agent.model, agent.api_key = original_agent.model, self.anthropic_key`.
Hence the model written back is the backup model itself, while the api key
is reset to the council's anthropic key; `agentAfter` records exactly
that state. -/
def analyze_with_agent (anthropic_key openai_key : String) (agent : AgentState)
    (agent_name : String) (primary fallbackOutcome : ApiOutcome) : RunResult :=
  let result := analyze_stock agent primary
  if result.status = "error" then
    match fallback_map openai_key agent.model with
    | none =>
        ⟨⟨agent_name, none, none, "error", some ("백업 모델이 지정되지 않음"), agent.model⟩,
          agent, 1⟩
    | some (backup_model, backup_key) =>
        let agent1 : AgentState :=
          ⟨agent.expert_name, agent.expert_type, backup_model, backup_key⟩
        let result2 := analyze_stock agent1 fallbackOutcome
        let agentRestored : AgentState :=
          ⟨agent1.expert_name, agent1.expert_type, agent1.model, anthropic_key⟩
        ⟨result2, agentRestored, 2⟩
  else
    ⟨result, agent, 1⟩

/-- Outcome of one chairman-model request in `get_chairman_verdict`:
`ok content` models a response (`content = none` models an empty
`response.content` list for the primary call, or a `None` message body for
the backup call), `exn msg` a raised exception. -/
inductive ChairmanOutcome where
  | ok (content : Option String)
  | exn (msg : String)
deriving DecidableEq, Repr

/-- Result dictionary of `get_chairman_verdict`, with keys
`chairman_report`, `status` and (on the error path) `error_message`. -/
structure ChairmanResult where
  chairman_report : Option String
  status : String
  error_message : Option String
deriving DecidableEq, Repr

/-- Embedding of `ExpertCouncil.get_chairman_verdict`
(src/expert_council.py lines 137-254), abstracted over the two chairman
model calls. A primary response yields status `"success"` with the
response text, or the literal fallback text when `response.content` is
empty (line 229). A primary exception falls to the backup call: a backup
response yields status `"success"` with its (possibly `None`) message
content (lines 248-250); a backup exception yields the classified error
dictionary of line 252. The enclosing `try` at line 208 catches anything
else into the error dictionary of line 254, so no path raises. -/
def get_chairman_verdict (primary backup : ChairmanOutcome) : ChairmanResult :=
  match primary with
  | ChairmanOutcome.ok content =>
      ⟨some (content.getD ("의장 보고서 생성에 실패했습니다.")), "success", none⟩
  | ChairmanOutcome.exn _ =>
      match backup with
      | ChairmanOutcome.ok content2 => ⟨content2, "success", none⟩
      | ChairmanOutcome.exn backup_e =>
          ⟨none, "error", some ("백업 의장 모델 실패: " ++ backup_e)⟩

/-- Embedding of `ExpertCouncil._get_system_status`
(src/expert_council.py lines 299-314): an all-experts message when every
analysis succeeded, and otherwise a single parameterized warning message
built from the counts. -/
def get_system_status (successful_count total_count : Nat) : String :=
  if successful_count = total_count then
    "✅ 본 분석은 " ++ toString total_count ++ "명의 AI 전문가 전원의 의견을 종합한 결과입니다."
  else
    "⚠️ 주의: " ++ toString total_count ++ "명 중 " ++ toString successful_count ++
      "명의 의견만을 종합한 결과입니다. (누락: " ++ toString (total_count - successful_count) ++ "명)"

/-- Status-classification family of the all-succeeded branch
(src/expert_council.py line 311), for comparison with the spec's
`AllSucceeded` case. -/
def allSucceededMsg (total_count : Nat) : String :=
  "✅ 본 분석은 " ++ toString total_count ++ "명의 AI 전문가 전원의 의견을 종합한 결과입니다."

/-- Status-classification family of the else branch
(src/expert_council.py lines 313-314), for comparison with the spec's
`PartialSuccess(successCount, total)` case. -/
def someMissingMsg (successful_count total_count : Nat) : String :=
  "⚠️ 주의: " ++ toString total_count ++ "명 중 " ++ toString successful_count ++
    "명의 의견만을 종합한 결과입니다. (누락: " ++ toString (total_count - successful_count) ++ "명)"

/-- One element of the list returned by
`asyncio.gather(*tasks, return_exceptions=True)`
(src/expert_council.py line 105): either an exception object surfaced as a
value, or the result dictionary of a completed task. -/
inductive JoinItem where
  | exnItem (msg : String)
  | dictItem (r : ResultDict)
deriving DecidableEq, Repr

/-- Entry of the `failed_results` list (src/expert_council.py
lines 111-121): `fromExn msg` models the dictionary
built at lines 113-117 for an exception surfaced by the join, and
`fromDict r` a completed result dictionary whose status is not
`"success"`. -/
inductive FailedEntry where
  | exnEntry (msg : String)
  | dictEntry (r : ResultDict)
deriving DecidableEq, Repr

/-- Embedding of the result-classification loop of
`analyze_stock_parallel` (src/expert_council.py lines 107-121): walk the
joined results in order, sending exceptions and non-success dictionaries
to the failure list and success dictionaries to the success list. -/
def classifyResults : List JoinItem → List ResultDict × List FailedEntry
  | [] => ([], [])
  | JoinItem.exnItem msg :: rest =>
      ((classifyResults rest).1, FailedEntry.exnEntry msg :: (classifyResults rest).2)
  | JoinItem.dictItem r :: rest =>
      if r.status = "success" then
        (r :: (classifyResults rest).1, (classifyResults rest).2)
      else
        ((classifyResults rest).1, FailedEntry.dictEntry r :: (classifyResults rest).2)

/-- Council-level report dictionary built by `analyze_stock_parallel`
(src/expert_council.py lines 80-89 and 124-133). -/
structure CouncilResult where
  stock_name : String
  analysis_timestamp : String
  total_experts : Nat
  successful_analyses : Nat
  failed_analyses : Nat
  expert_analyses : List ResultDict
  failed_experts : List FailedEntry
  system_status : String
deriving DecidableEq, Repr

/-- Embedding of the approval test at src/expert_council.py lines 76-78:
`approval = input(...).strip().lower()` followed by
`if approval not in ['y', 'yes']`. -/
def approvalGranted (approval : String) : Bool :=
  pyLower (pyStrip approval) == "y" || pyLower (pyStrip approval) == "yes"

/-- Report returned on the cancellation path
(src/expert_council.py lines 80-89). -/
def cancelledReport (stock_name timestamp : String) : CouncilResult :=
  ⟨stock_name, timestamp, 0, 0, 0, [], [], "사용자에 의해 취소됨"⟩

/-- Embedding of `ExpertCouncil.analyze_stock_parallel`
(src/expert_council.py lines 53-135). The console interaction is reduced
to the decision it yields: when approval is required and declined, the
cancellation report is returned before any task is launched. Otherwise one
task per configured agent is gathered; `joined` is the list the join
returns (one terminal item per task, exceptions surfaced as values), and
the report is assembled from its classification. `num_agents` is
`len(self.agents)` and `timestamp` stands for `datetime.now().isoformat()`. -/
def analyze_stock_parallel (stock_name timestamp : String) (require_approval : Bool)
    (approval : String) (num_agents : Nat) (joined : List JoinItem) : CouncilResult :=
  if require_approval && !approvalGranted approval then
    cancelledReport stock_name timestamp
  else
    ⟨stock_name, timestamp, num_agents,
      (classifyResults joined).1.length, (classifyResults joined).2.length,
      (classifyResults joined).1, (classifyResults joined).2,
      get_system_status (classifyResults joined).1.length num_agents⟩

/-- Aggregation action taken on the successful reports after the join. -/
inductive GateAction where
  | synthesize
  | individualOnly
  | noReport
deriving DecidableEq, Repr

/-- Embedding of the quorum branch of `run_interactive_council_analysis`
(src/expert_council.py lines 549-579): the chairman (Synthesizer) is
called when at least 3 reports succeeded, only the individual reports are
printed when between 1 and 2 succeeded, and nothing is produced
otherwise. -/
def councilGate (successful_reports : List ResultDict) : GateAction :=
  if 3 ≤ successful_reports.length then GateAction.synthesize
  else if 1 ≤ successful_reports.length ∧ successful_reports.length < 3 then
    GateAction.individualOnly
  else GateAction.noReport

/-- Embedding of the chairman-invocation condition of `run_async_analysis`
(src/app.py lines 63-74): `if len(successful_reports) >= 3`. -/
def runAsyncChairmanInvoked (successful_reports : List ResultDict) : Bool :=
  decide (3 ≤ successful_reports.length)

/-! ## Sample values for concrete evaluation -/

/-- Concrete agent state matching the council's Warren Buffett entry
(src/expert_council.py line 39, src/agents.py lines 202-208), with a
placeholder credential. -/
def councilBuffett : AgentState :=
  ⟨"워렌 버핏 (가치 투자)", "value_investor", "claude-sonnet-4-20250514", "sk-ant-test"⟩

/-- Concrete successful result dictionary. -/
def sampleSuccess : ResultDict :=
  ⟨"워렌 버핏 (가치 투자)", some ("value_investor"), some ("매수"),
    "success", none, "claude-sonnet-4-20250514"⟩

/-- Concrete failed result dictionary. -/
def sampleFailure : ResultDict :=
  ⟨"피터 린치 (성장 투자)", some ("growth_investor"), none,
    "error", some ("Overloaded"), "claude-sonnet-4-20250514"⟩

/-! ## Helper lemmas -/

/-- Every `analyze_stock` result is classified as success or error. -/
theorem analyze_stock_status_classified (agent : AgentState) (o : ApiOutcome) :
    (analyze_stock agent o).status = "success" ∨ (analyze_stock agent o).status = "error" := by
  cases o <;> simp [analyze_stock]

/-- The classification loop conserves cardinality: successes plus failures
equal the number of joined items. -/
theorem classifyResults_length (joined : List JoinItem) :
    (classifyResults joined).1.length + (classifyResults joined).2.length = joined.length := by
  induction joined with
  | nil => rfl
  | cons item rest ih =>
    cases item with
    | exnItem msg => simp [classifyResults]; omega
    | dictItem r =>
      by_cases h : r.status = "success" <;> simp [classifyResults, h] <;> omega

/-! ## Claims -/

/-- Claim C1: with the quorum threshold 3 over 5 producers and success
count `s` (`0 ≤ s ≤ 5`), the chairman (Synthesizer) call is selected
exactly when `s ≥ 3`; only the individual successful reports are presented
exactly when `1 ≤ s < 3`; and nothing is produced exactly when `s = 0`;
the chairman-invocation condition of `run_async_analysis` agrees with the
gate. -/
theorem quorum_gate_correct (reports : List ResultDict) (h : reports.length ≤ 5) :
    (councilGate reports = GateAction.synthesize ↔ 3 ≤ reports.length)
  ∧ (councilGate reports = GateAction.individualOnly ↔
      1 ≤ reports.length ∧ reports.length < 3)
  ∧ (councilGate reports = GateAction.noReport ↔ reports.length = 0)
  ∧ (runAsyncChairmanInvoked reports = true ↔ councilGate reports = GateAction.synthesize) := by
  unfold councilGate runAsyncChairmanInvoked
  generalize reports.length = n at h ⊢
  interval_cases n <;> decide

/-- Witness for C1: three successful reports open the gate. -/
theorem quorum_gate_correct_witness :
    (List.replicate 3 sampleSuccess).length ≤ 5
  ∧ (councilGate (List.replicate 3 sampleSuccess) = GateAction.synthesize ↔
      3 ≤ (List.replicate 3 sampleSuccess).length) :=
  ⟨by decide, (quorum_gate_correct (List.replicate 3 sampleSuccess) (by decide)).1⟩

/-- Claim C2: on the execution path, the council report counts all `N`
configured producers: `total_experts = N` and
`successful_analyses + failed_analyses = N`; the success and failure lists
together also carry one entry per producer, and an execution surfaced as
an exception at the join becomes a failure entry rather than being
dropped. The hypothesis records that the join returns exactly one terminal
item per launched task. -/
theorem council_report_cardinality (stock_name timestamp : String) (num_agents : Nat)
    (joined : List JoinItem) (h : joined.length = num_agents) :
    (analyze_stock_parallel stock_name timestamp false "" num_agents joined).total_experts
        = num_agents
  ∧ (analyze_stock_parallel stock_name timestamp false "" num_agents joined).successful_analyses
      + (analyze_stock_parallel stock_name timestamp false "" num_agents joined).failed_analyses
        = num_agents
  ∧ (analyze_stock_parallel stock_name timestamp false "" num_agents joined).expert_analyses.length
      + (analyze_stock_parallel stock_name timestamp false "" num_agents joined).failed_experts.length
        = num_agents := by
  have hc := classifyResults_length joined
  simp only [analyze_stock_parallel, Bool.false_and, Bool.not_false, if_neg]
  refine ⟨rfl, ?_, ?_⟩ <;> simpa [h] using hc

/-- Witness for C2: five joined items (three successes, one classified
failure, one exception surfaced by the join) over five configured
producers. -/
theorem council_report_cardinality_witness :
    ([JoinItem.dictItem sampleSuccess, JoinItem.dictItem sampleFailure,
      JoinItem.exnItem ("task crashed"), JoinItem.dictItem sampleSuccess,
      JoinItem.dictItem sampleSuccess] : List JoinItem).length = 5
  ∧ (analyze_stock_parallel ("NVDA") ("2025-01-01T00:00:00") false "" 5
      [JoinItem.dictItem sampleSuccess, JoinItem.dictItem sampleFailure,
       JoinItem.exnItem ("task crashed"), JoinItem.dictItem sampleSuccess,
       JoinItem.dictItem sampleSuccess]).total_experts = 5 :=
  ⟨by decide,
    (council_report_cardinality ("NVDA") ("2025-01-01T00:00:00") 5
      [JoinItem.dictItem sampleSuccess, JoinItem.dictItem sampleFailure,
       JoinItem.exnItem ("task crashed"), JoinItem.dictItem sampleSuccess,
       JoinItem.dictItem sampleSuccess] (by decide)).1⟩

/-- Claim C3: per `_analyze_with_agent` call, the number of
`analyze_stock` invocations is exactly 1 when the primary attempt does not
fail or when no fallback is configured for the agent's model, and exactly
2 when the primary fails and a fallback is configured; it is never more
than 2. The fallback attempt's outcome is final (it is returned as-is),
and with no fallback the final result is a failure attributed to the
primary model. -/
theorem fallback_at_most_once (anthropic_key openai_key : String) (agent : AgentState)
    (agent_name : String) (o1 o2 : ApiOutcome) :
    ((analyze_stock agent o1).status ≠ "error" →
      analyze_with_agent anthropic_key openai_key agent agent_name o1 o2
        = ⟨analyze_stock agent o1, agent, 1⟩)
  ∧ ((analyze_stock agent o1).status = "error" →
      fallback_map openai_key agent.model = none →
      (analyze_with_agent anthropic_key openai_key agent agent_name o1 o2).apiCalls = 1
      ∧ (analyze_with_agent anthropic_key openai_key agent agent_name o1 o2).result.status
          = "error"
      ∧ (analyze_with_agent anthropic_key openai_key agent agent_name o1 o2).result.model_used
          = agent.model)
  ∧ (∀ backup_model backup_key, (analyze_stock agent o1).status = "error" →
      fallback_map openai_key agent.model = some (backup_model, backup_key) →
      (analyze_with_agent anthropic_key openai_key agent agent_name o1 o2).apiCalls = 2
      ∧ (analyze_with_agent anthropic_key openai_key agent agent_name o1 o2).result
          = analyze_stock ⟨agent.expert_name, agent.expert_type, backup_model, backup_key⟩ o2)
  ∧ (analyze_with_agent anthropic_key openai_key agent agent_name o1 o2).apiCalls ≤ 2 := by
  refine ⟨?_, ?_, ?_, ?_⟩
  · intro h
    simp [analyze_with_agent, h]
  · intro h hf
    simp [analyze_with_agent, h, hf]
  · intro backup_model backup_key h hf
    simp [analyze_with_agent, h, hf]
  · by_cases h : (analyze_stock agent o1).status = "error"
    · rcases hf : fallback_map openai_key agent.model with _ | ⟨bm, bk⟩ <;>
        simp [analyze_with_agent, h, hf]
    · simp [analyze_with_agent, h]

/-- Witness for C3: a failing primary with the configured fallback makes
exactly two invocations. -/
theorem fallback_at_most_once_witness :
    (analyze_stock councilBuffett (ApiOutcome.exn ("overloaded"))).status = "error"
  ∧ fallback_map ("sk-oa-test") councilBuffett.model = some ("gpt-5", "sk-oa-test")
  ∧ (analyze_with_agent ("sk-ant-test") ("sk-oa-test") councilBuffett ("warren_buffett")
      (ApiOutcome.exn ("overloaded")) (ApiOutcome.ok (some ("분석 보고서")))).apiCalls = 2 :=
  ⟨by decide, by decide,
    ((fallback_at_most_once ("sk-ant-test") ("sk-oa-test") councilBuffett ("warren_buffett")
        (ApiOutcome.exn ("overloaded")) (ApiOutcome.ok (some ("분석 보고서")))).2.2.1
      ("gpt-5") ("sk-oa-test") (by decide) (by decide)).1⟩

/-- Claim C4 counterexample: a call that completes without raising but
returns an empty payload yields status `"success"` — not a failure — with
the payload replaced by the placeholder text, so it does count toward the
quorum. This refutes the claim that such a result is a Failure with
errorKind `EmptyResponse`. -/
theorem empty_payload_reported_success :
    (analyze_stock councilBuffett (ApiOutcome.ok (some ("")))).status = "success"
  ∧ (analyze_stock councilBuffett (ApiOutcome.ok (some ("")))).analysis
      = some (placeholderMsg councilBuffett.expert_name)
  ∧ (analyze_stock councilBuffett (ApiOutcome.ok none)).status = "success" := by
  refine ⟨rfl, by decide, rfl⟩

/-- Claim C4 amended: for every producer call whose API request completes
without raising but whose payload is empty or blank (`None`, empty, or
whitespace-only), the result is a `"success"` dictionary whose analysis is
the placeholder message naming the expert, tagged with the configured
model — so it still counts toward the quorum. -/
theorem empty_payload_is_placeholder_success (agent : AgentState) (payload : Option String)
    (h : emptyCheck payload = true) :
    (analyze_stock agent (ApiOutcome.ok payload)).status = "success"
  ∧ (analyze_stock agent (ApiOutcome.ok payload)).analysis
      = some (placeholderMsg agent.expert_name)
  ∧ (analyze_stock agent (ApiOutcome.ok payload)).model_used = agent.model := by
  simp [analyze_stock, h]

/-- Witness for the amended C4 at a whitespace-only payload. -/
theorem empty_payload_is_placeholder_success_witness :
    emptyCheck (some ("  ")) = true
  ∧ (analyze_stock councilBuffett (ApiOutcome.ok (some ("  ")))).status = "success" :=
  ⟨by decide, (empty_payload_is_placeholder_success councilBuffett (some ("  ")) (by decide)).1⟩

/-- Claim C5: the code intends (comment at src/expert_council.py line 294,
"항상 원래 모델 정보로 복원") to restore the agent's `model` and `api_key`
after a fallback attempt, but the `finally` block reads `original_agent`
out of `self.agents` — the same object whose `model` was just overwritten —
so after a fallback the agent's `model` remains the backup model
`"gpt-5"` instead of the original `"claude-sonnet-4-20250514"`; only
`api_key` is reset (to the council's anthropic key). This theorem
evaluates the embedded code at the failing input. -/
theorem fallback_leaves_backup_model :
    (analyze_with_agent ("sk-ant-test") ("sk-oa-test") councilBuffett ("warren_buffett")
      (ApiOutcome.exn ("overloaded")) (ApiOutcome.ok (some ("분석 보고서")))).agentAfter.model
        = "gpt-5"
  ∧ councilBuffett.model = "claude-sonnet-4-20250514"
  ∧ (analyze_with_agent ("sk-ant-test") ("sk-oa-test") councilBuffett ("warren_buffett")
      (ApiOutcome.exn ("overloaded")) (ApiOutcome.ok (some ("분석 보고서")))).agentAfter.model
        ≠ councilBuffett.model
  ∧ (analyze_with_agent ("sk-ant-test") ("sk-oa-test") councilBuffett ("warren_buffett")
      (ApiOutcome.exn ("overloaded")) (ApiOutcome.ok (some ("분석 보고서")))).agentAfter.api_key
        = "sk-ant-test" := by
  refine ⟨by decide, rfl, by decide, by decide⟩

/-- Claim C6 counterexample: with zero successes out of five the status
message is the very same parameterized warning produced for any partial
success — instantiated at 0 — not a distinct all-failed classification;
the claimed third case does not exist in `_get_system_status`. -/
theorem all_failed_status_is_partial_message :
    get_system_status 0 5 = someMissingMsg 0 5
  ∧ get_system_status 0 5
      = "⚠️ 주의: 5명 중 0명의 의견만을 종합한 결과입니다. (누락: 5명)" :=
  ⟨rfl, rfl⟩

/-- Claim C6 amended: the status classification distinguishes exactly two
cases, not three: the all-succeeded message when `successCount = totalCount`,
and otherwise — including `successCount = 0` — the single parameterized
partial message built from the counts; there is no distinct all-failed
classification. -/
theorem system_status_two_cases (s t : Nat) :
    (s = t → get_system_status s t = allSucceededMsg t)
  ∧ (s ≠ t → get_system_status s t = someMissingMsg s t) := by
  constructor <;> intro h <;>
    simp [get_system_status, allSucceededMsg, someMissingMsg, h]

/-- Witness for the amended C6 at both branches, including the zero-success
case falling into the partial family. -/
theorem system_status_two_cases_witness :
    get_system_status 5 5 = allSucceededMsg 5
  ∧ get_system_status 2 5 = someMissingMsg 2 5 :=
  ⟨(system_status_two_cases 5 5).1 rfl, (system_status_two_cases 2 5).2 (by decide)⟩

/-- Claim C7: whenever the primary attempt fails and the configured
fallback call completes without raising, the returned result has status
`"success"` and its `model_used` field names the backup model, not the
primary one. -/
theorem fallback_success_tagged_with_backup_model (anthropic_key openai_key : String)
    (agent : AgentState) (agent_name : String) (o1 : ApiOutcome) (payload : Option String)
    (backup_model backup_key : String)
    (hp : (analyze_stock agent o1).status = "error")
    (hf : fallback_map openai_key agent.model = some (backup_model, backup_key)) :
    (analyze_with_agent anthropic_key openai_key agent agent_name o1
        (ApiOutcome.ok payload)).result.status = "success"
  ∧ (analyze_with_agent anthropic_key openai_key agent agent_name o1
        (ApiOutcome.ok payload)).result.model_used = backup_model := by
  simp only [analyze_with_agent, hp, hf]
  simp [analyze_stock]

/-- Witness for C7: the council's configured fallback succeeds after a
primary failure, and the result is tagged `"gpt-5"`. -/
theorem fallback_success_tagged_with_backup_model_witness :
    (analyze_stock councilBuffett (ApiOutcome.exn ("rate limited"))).status = "error"
  ∧ fallback_map ("sk-oa-test") councilBuffett.model = some ("gpt-5", "sk-oa-test")
  ∧ (analyze_with_agent ("sk-ant-test") ("sk-oa-test") councilBuffett ("warren_buffett")
      (ApiOutcome.exn ("rate limited")) (ApiOutcome.ok (some ("매수 의견")))).result.model_used
        = "gpt-5" :=
  ⟨by decide, by decide,
    (fallback_success_tagged_with_backup_model ("sk-ant-test") ("sk-oa-test") councilBuffett
      ("warren_buffett") (ApiOutcome.exn ("rate limited")) (some ("매수 의견"))
      ("gpt-5") ("sk-oa-test") (by decide) (by decide)).2⟩

/-- Claim C8: for every input, both `_analyze_with_agent` and
`get_chairman_verdict` return a classified dictionary whose `status` is
`"success"` or `"error"`; in the embedding both are total functions into
result dictionaries, mirroring the source's try/except structure in which
every raised exception is converted to a classified dictionary, so no
exit path is unclassified. -/
theorem results_always_classified (anthropic_key openai_key : String) (agent : AgentState)
    (agent_name : String) (o1 o2 : ApiOutcome) (cp cb : ChairmanOutcome) :
    ((analyze_with_agent anthropic_key openai_key agent agent_name o1 o2).result.status
        = "success"
      ∨ (analyze_with_agent anthropic_key openai_key agent agent_name o1 o2).result.status
        = "error")
  ∧ ((get_chairman_verdict cp cb).status = "success"
      ∨ (get_chairman_verdict cp cb).status = "error") := by
  constructor
  · by_cases h : (analyze_stock agent o1).status = "error"
    · rcases hf : fallback_map openai_key agent.model with _ | ⟨bm, bk⟩
      · right
        simp only [analyze_with_agent, h, hf]
        simp
      · simp only [analyze_with_agent, h, hf]
        simpa using analyze_stock_status_classified ⟨agent.expert_name, agent.expert_type, bm, bk⟩ o2
    · simp only [analyze_with_agent, h]
      simpa [h] using analyze_stock_status_classified agent o1
  · cases cp <;> cases cb <;> simp [get_chairman_verdict]

/-- Claim C9: for every configured model name containing none of the
substrings "gpt", "claude", "gemini" (case-insensitive), the client falls
through to the default OpenAI client, the outbound request carries the
hard-coded model `"gpt-4o"` rather than the configured name, and yet the
returned dictionary's `model_used` field still reports the configured
name — on the success and the error path alike. -/
theorem unknown_model_routes_to_default (m : String)
    (h1 : hasSub (pyLower m) ("gpt") = false)
    (h2 : hasSub (pyLower m) ("claude") = false)
    (h3 : hasSub (pyLower m) ("gemini") = false) :
    init_client m = ClientKind.openaiClient
  ∧ requestModelName m = "gpt-4o"
  ∧ ∀ expert_name expert_type api_key o,
      (analyze_stock ⟨expert_name, expert_type, m, api_key⟩ o).model_used = m := by
  refine ⟨?_, ?_, ?_⟩
  · simp [init_client, h1, h2, h3]
  · simp [requestModelName, h1, h2, h3]
  · intro expert_name expert_type api_key o
    cases o <;> simp [analyze_stock]

/-- Witness for C9 at the unrecognized model name "llama-3-70b". -/
theorem unknown_model_routes_to_default_witness :
    hasSub (pyLower ("llama-3-70b")) ("gpt") = false
  ∧ requestModelName ("llama-3-70b") = "gpt-4o" :=
  ⟨by decide,
    (unknown_model_routes_to_default ("llama-3-70b")
      (by decide) (by decide) (by decide)).2.1⟩

/-- Claim C10: when approval is required and the user declines, no agent
is invoked and the returned report is exactly the cancellation report:
`total_experts = 0`, zero success and failure counts, empty result lists,
and system status "사용자에 의해 취소됨" — the total is 0, not the number of
configured producers. -/
theorem cancellation_report_shape (stock_name timestamp approval : String)
    (num_agents : Nat) (joined : List JoinItem)
    (h : approvalGranted approval = false) :
    analyze_stock_parallel stock_name timestamp true approval num_agents joined
        = cancelledReport stock_name timestamp
  ∧ (analyze_stock_parallel stock_name timestamp true approval num_agents joined).total_experts
        = 0
  ∧ (analyze_stock_parallel stock_name timestamp true approval num_agents joined).successful_analyses
        = 0
  ∧ (analyze_stock_parallel stock_name timestamp true approval num_agents joined).failed_analyses
        = 0
  ∧ (analyze_stock_parallel stock_name timestamp true approval num_agents joined).expert_analyses
        = []
  ∧ (analyze_stock_parallel stock_name timestamp true approval num_agents joined).failed_experts
        = []
  ∧ (analyze_stock_parallel stock_name timestamp true approval num_agents joined).system_status
        = "사용자에 의해 취소됨" := by
  simp [analyze_stock_parallel, h, cancelledReport]

/-- Witness for C10: the declining input "  N " (stripped and lowered to
"n") cancels a five-producer run. -/
theorem cancellation_report_shape_witness :
    approvalGranted ("  N ") = false
  ∧ (analyze_stock_parallel ("NVDA") ("2025-01-01T00:00:00") true ("  N ") 5
      [JoinItem.dictItem sampleSuccess]).total_experts = 0 :=
  ⟨by decide,
    (cancellation_report_shape ("NVDA") ("2025-01-01T00:00:00") ("  N ") 5
      [JoinItem.dictItem sampleSuccess] (by decide)).2.1⟩
